import Mathlib

/-!
Verification of the Brew and Bite Café financial-management system
(layered implementation under `src/`).

The Python code is shallowly embedded: database rows become structures,
the shared SQLAlchemy session becomes an explicit `DBState`, each DAO /
service method becomes a function on `DBState`, and a method that raises
becomes `Except String`.  A raised exception before `session.commit()`
means the surrounding transactional scope (`session_scope` in
`src/database/database.py`) rolls the session back, so an `Except.error`
result carries no new state and the committed state is unchanged.

Python strings that must be inspected character by character (password
hashes, which `verify_password` splits on `'$'`) are embedded as
`List Char`; other strings stay `String`.  `datetime.utcnow()` becomes an
explicit `now : Nat` parameter (seconds); `Decimal` / monetary values
become `Rat`; Python `int` becomes `Int`.  The SHA-256 digest from
`hashlib` (an external library) is a parameter `H : List Char → List Char`
of the password functions.
-/

namespace BrewAndBite

/-- Decidable equality for embedded fallible results, so concrete runs
can be checked by `decide`. -/
instance instDecEqExcept {ε α : Type} [DecidableEq ε] [DecidableEq α] :
    DecidableEq (Except ε α) := fun x y =>
  match x, y with
  | .ok a, .ok b =>
    if h : a = b then .isTrue (by rw [h]) else .isFalse (by simp [h])
  | .error a, .error b =>
    if h : a = b then .isTrue (by rw [h]) else .isFalse (by simp [h])
  | .ok _, .error _ => .isFalse (by simp)
  | .error _, .ok _ => .isFalse (by simp)

/-! ### Security utilities (`src/utils/security.py`) -/

/-- Python `str.split('$')`: splits a character list on every `'$'`,
returning the (always non-empty) list of separated parts. -/
def splitOnDollar : List Char → List (List Char)
  | [] => [[]]
  | c :: rest =>
    match splitOnDollar rest with
    | [] => [[]]
    | p :: ps => if c = '$' then [] :: p :: ps else (c :: p) :: ps

/-- `hash_password` (security.py lines 9-14): salted digest stored as
`salt$hash`.  The fresh random salt of the Python code is the explicit
`salt` argument; `H` is the SHA-256 hex digest. -/
def hash_password (H : List Char → List Char) (salt password : List Char) : List Char :=
  salt ++ '$' :: H (password ++ salt)

/-- `verify_password` (security.py lines 16-23): split the stored value on
`'$'`; a malformed value (not exactly two parts) hits the `ValueError`
handler and yields `false`. -/
def verify_password (H : List Char → List Char) (password hashed_password : List Char) : Bool :=
  match splitOnDollar hashed_password with
  | [salt, hash_value] => H (password ++ salt) == hash_value
  | _ => false

/-- The decoded payload of the JWT issued by `generate_reset_token`
(security.py lines 25-36). -/
structure ResetTokenPayload where
  user_id : Nat
  exp : Nat
  purpose : String
  deriving Repr, DecidableEq

/-- `generate_reset_token` (security.py lines 25-36): expiry is
`utcnow() + timedelta(hours=24)`. -/
def generate_reset_token (now : Nat) (user_id : Nat) : ResetTokenPayload :=
  { user_id := user_id, exp := now + 24 * 3600, purpose := "password_reset" }

/-- `verify_reset_token` (security.py lines 38-48): `jwt.decode` raises
`ExpiredSignatureError` when the embedded `exp` is in the past, then the
purpose claim is checked, and the embedded user id is returned. -/
def verify_reset_token (now : Nat) (t : ResetTokenPayload) : Option Nat :=
  if t.exp < now then none
  else if t.purpose ≠ "password_reset" then none
  else some t.user_id

/-! ### Data model (`src/database/models.py`) -/

/-- A row of `users` (models.py lines 16-34). -/
structure UserRec where
  id : Nat
  username : String
  email : String
  password_hash : List Char
  role : String
  is_active : Bool
  last_login : Option Nat
  reset_token : Option String
  reset_token_expiry : Option Nat
  deriving Repr, DecidableEq

/-- A row of `inventory` (models.py lines 65-79). -/
structure InventoryItemRec where
  id : Nat
  name : String
  description : String
  quantity : Int
  unit_cost : Rat
  reorder_level : Int
  deriving Repr, DecidableEq

/-- A row of `inventory_transactions` (models.py lines 82-95).  The
`inventory_item_id` column is declared `nullable=False` (line 86); the
field is an `Option` because SQLAlchemy only discovers a `None` value at
INSERT time, when the NOT NULL constraint rejects it. -/
structure InventoryTransactionRec where
  inventory_item_id : Option Nat
  transaction_type : String
  quantity : Int
  user_id : Nat
  notes : Option String
  deriving Repr, DecidableEq

/-- A row of `sales` (models.py lines 98-111). -/
structure SaleRec where
  id : Nat
  user_id : Nat
  total_amount : Rat
  payment_method : String
  notes : Option String
  deriving Repr, DecidableEq

/-- A row of `sale_items` (models.py lines 114-125). -/
structure SaleItemRec where
  sale_id : Nat
  inventory_item_id : Nat
  quantity : Int
  unit_price : Rat
  deriving Repr, DecidableEq

/-- A row of `audit_logs` (models.py lines 128-140). -/
structure AuditLogRec where
  user_id : Option Nat
  action : String
  table_name : String
  record_id : Option Nat
  details : String
  deriving Repr, DecidableEq

/-- The committed database state seen through the shared session.
`next_sale_id` / `next_item_id` model the autoincrement counters. -/
structure DBState where
  users : List UserRec
  inventory : List InventoryItemRec
  sales : List SaleRec
  sale_items : List SaleItemRec
  inventory_transactions : List InventoryTransactionRec
  audit_logs : List AuditLogRec
  next_sale_id : Nat
  next_item_id : Nat
  deriving Repr, DecidableEq

/-- In-place mutation of the first row matched by a query
(`query(...).filter_by(...).first()` followed by attribute assignment):
apply `f` to the first element satisfying `p`, keep the rest. -/
def updateFirstBy (p : α → Bool) (f : α → α) : List α → List α
  | [] => []
  | x :: xs => if p x then f x :: xs else x :: updateFirstBy p f xs

/-! ### UserDAO (`src/dal/user_dao.py`) -/

/-- `UserDAO.get_user_by_id` (user_dao.py lines 38-41): note the
`is_active=True` filter. -/
def user_dao_get_user_by_id (st : DBState) (user_id : Nat) : Option UserRec :=
  st.users.find? (fun u => u.id == user_id && u.is_active)

/-- `UserDAO.get_user_by_username` (user_dao.py lines 43-46): active
users only. -/
def user_dao_get_user_by_username (st : DBState) (username : String) : Option UserRec :=
  st.users.find? (fun u => u.username == username && u.is_active)

/-- `UserDAO.get_user_by_email` (user_dao.py lines 48-51): active users
only. -/
def user_dao_get_user_by_email (st : DBState) (email : String) : Option UserRec :=
  st.users.find? (fun u => u.email == email && u.is_active)

/-- `UserDAO.set_reset_token` (user_dao.py lines 121-131).  The method
stores the token and expiry and commits; it adds no `AuditLog` row. -/
def user_dao_set_reset_token (st : DBState) (user_id : Nat) (reset_token : String)
    (expiry : Nat) : Bool × DBState :=
  match user_dao_get_user_by_id st user_id with
  | none => (false, st)
  | some _ =>
    (true, { st with
      users := updateFirstBy (fun u => u.id == user_id && u.is_active)
        (fun u => { u with reset_token := some reset_token,
                           reset_token_expiry := some expiry }) st.users })

/-- `UserDAO.update_last_login` (user_dao.py lines 189-198).  Sets the
timestamp and commits; it adds no `AuditLog` row. -/
def user_dao_update_last_login (st : DBState) (user_id : Nat) (now : Nat) : Bool × DBState :=
  match user_dao_get_user_by_id st user_id with
  | none => (false, st)
  | some _ =>
    (true, { st with
      users := updateFirstBy (fun u => u.id == user_id && u.is_active)
        (fun u => { u with last_login := some now }) st.users })

/-- `UserDAO.deactivate_user` (user_dao.py lines 145-165): clears
`is_active` on the row found by `get_user_by_id` and writes one audit
row. -/
def user_dao_deactivate_user (st : DBState) (user_id : Nat) (audit_user_id : Nat) :
    Bool × DBState :=
  match user_dao_get_user_by_id st user_id with
  | none => (false, st)
  | some user =>
    (true, { st with
      users := updateFirstBy (fun u => u.id == user_id && u.is_active)
        (fun u => { u with is_active := false }) st.users
      audit_logs := st.audit_logs ++
        [{ user_id := some audit_user_id, action := "DEACTIVATE", table_name := "users",
           record_id := some user_id, details := "Deactivated user: " ++ user.username }] })

/-- `UserDAO.reactivate_user` (user_dao.py lines 167-187): looks the row
up by id alone (no active filter), sets `is_active`, writes one audit
row. -/
def user_dao_reactivate_user (st : DBState) (user_id : Nat) (audit_user_id : Nat) :
    Bool × DBState :=
  match st.users.find? (fun u => u.id == user_id) with
  | none => (false, st)
  | some user =>
    (true, { st with
      users := updateFirstBy (fun u => u.id == user_id)
        (fun u => { u with is_active := true }) st.users
      audit_logs := st.audit_logs ++
        [{ user_id := some audit_user_id, action := "REACTIVATE", table_name := "users",
           record_id := some user_id, details := "Reactivated user: " ++ user.username }] })

/-! ### UserService and AuthService (`src/bll/user_service.py`, `src/bll/auth_service.py`) -/

/-- `UserService.authenticate_user` (user_service.py lines 61-89): DAO
lookup by username (active only), password check, last-login update,
projection of the user row (or `none` on failure). -/
def user_service_authenticate_user (H : List Char → List Char) (st : DBState)
    (username : String) (password : List Char) (now : Nat) : Option UserRec × DBState :=
  match user_dao_get_user_by_username st username with
  | none => (none, st)
  | some user =>
    if verify_password H password user.password_hash then
      let r := user_dao_update_last_login st user.id now
      (some { user with last_login := some now }, r.2)
    else (none, st)

/-- `UserService.initiate_password_reset` (user_service.py lines 91-112).
`generate_reset_token` is defined in security.py line 25 with a required
positional `user_id` parameter, and user_service.py line 100 invokes it
as `generate_reset_token()` with no arguments, so for any matching
active user Python raises `TypeError` before a token exists; the
service's `except` clause re-raises it.  The embedding reflects that
call-time arity error directly. -/
def user_service_initiate_password_reset (st : DBState) (email : String) :
    Except String (Option String × DBState) :=
  match user_dao_get_user_by_email st email with
  | none => .ok (none, st)
  | some _ =>
    .error "TypeError: generate_reset_token() missing 1 required positional argument: user_id"

/-- The `(success, user_data, error_message)` triple returned by
`AuthService.login`. -/
structure LoginResult where
  success : Bool
  user_data : Option UserRec
  error_message : Option String
  deriving Repr, DecidableEq

/-- `AuthService.login` (auth_service.py lines 19-49): username lookup,
active check, password check, last-login update, session creation (the
in-memory session dict is projected to the returned user row). -/
def auth_service_login (H : List Char → List Char) (st : DBState)
    (username : String) (password : List Char) (now : Nat) : LoginResult × DBState :=
  match user_dao_get_user_by_username st username with
  | none =>
    ({ success := false, user_data := none,
       error_message := some "Invalid username or password" }, st)
  | some user =>
    if user.is_active = false then
      ({ success := false, user_data := none,
         error_message := some "Account is deactivated" }, st)
    else if verify_password H password user.password_hash = false then
      ({ success := false, user_data := none,
         error_message := some "Invalid username or password" }, st)
    else
      let r := user_dao_update_last_login st user.id now
      ({ success := true, user_data := some user, error_message := none }, r.2)

/-! ### InventoryDAO and InventoryService (`src/dal/inventory_dao.py`, `src/bll/inventory_service.py`) -/

/-- `InventoryDAO.get_item_by_id` (inventory_dao.py lines 49-51). -/
def inventory_dao_get_item_by_id (st : DBState) (item_id : Nat) : Option InventoryItemRec :=
  st.inventory.find? (fun it => it.id == item_id)

/-- `InventoryDAO.create_item` (inventory_dao.py lines 12-47).  The item
is added to the session without a flush, so its autoincrement `id` is
still unassigned (`None`) on line 29 when the `initial` transaction row
copies it; at commit the row's id is assigned, while the transaction row
keeps the `None` it captured, which the NOT NULL constraint on
`inventory_transactions.inventory_item_id` (models.py line 86) rejects
with an `IntegrityError`. -/
def inventory_dao_create_item (st : DBState) (name description : String) (quantity : Int)
    (unit_cost : Rat) (reorder_level : Int) (audit_user_id : Nat) :
    Except String (InventoryItemRec × DBState) :=
  let pending_item_id : Option Nat := none
  let new_transactions : List InventoryTransactionRec :=
    if quantity > 0 then
      [{ inventory_item_id := pending_item_id, transaction_type := "initial",
         quantity := quantity, user_id := audit_user_id,
         notes := some "Initial inventory setup" }]
    else []
  let audit : AuditLogRec :=
    { user_id := some audit_user_id, action := "CREATE", table_name := "inventory_items",
      record_id := none, details := "Created inventory item: " ++ name }
  if new_transactions.all (fun t => t.inventory_item_id.isSome) then
    let item : InventoryItemRec :=
      { id := st.next_item_id, name := name, description := description,
        quantity := quantity, unit_cost := unit_cost, reorder_level := reorder_level }
    .ok (item, { st with
      inventory := st.inventory ++ [item]
      inventory_transactions := st.inventory_transactions ++ new_transactions
      audit_logs := st.audit_logs ++ [audit]
      next_item_id := st.next_item_id + 1 })
  else
    .error "IntegrityError: NOT NULL constraint failed: inventory_transactions.inventory_item_id"

/-- `InventoryDAO.update_quantity` (inventory_dao.py lines 63-98):
applies the signed delta, records an `InventoryTransaction` and one
audit row, commits, and returns the mutated item (`None` when the id is
unknown). -/
def inventory_dao_update_quantity (st : DBState) (item_id : Nat) (quantity_change : Int)
    (transaction_type : String) (user_id : Nat) (notes : Option String) :
    Option (InventoryItemRec × DBState) :=
  match inventory_dao_get_item_by_id st item_id with
  | none => none
  | some item =>
    some ({ item with quantity := item.quantity + quantity_change },
      { st with
        inventory := updateFirstBy (fun it => it.id == item_id)
          (fun it => { it with quantity := it.quantity + quantity_change }) st.inventory
        inventory_transactions := st.inventory_transactions ++
          [{ inventory_item_id := some item_id, transaction_type := transaction_type,
             quantity := quantity_change, user_id := user_id, notes := notes }]
        audit_logs := st.audit_logs ++
          [{ user_id := some user_id, action := "UPDATE", table_name := "inventory_items",
             record_id := some item_id,
             details := "Updated quantity by " ++ toString quantity_change ++ ": "
               ++ transaction_type }] })

/-- The low-stock warning built by `InventoryService.update_stock`
(inventory_service.py line 93). -/
def update_stock_warning (quantity reorder_level : Int) : String :=
  "Low stock alert: Current quantity (" ++ toString quantity
    ++ ") is at or below reorder level (" ++ toString reorder_level ++ ")"

/-- `InventoryService.update_stock` (inventory_service.py lines 63-108).
The quantity validator runs on `abs(quantity_change)` and so always
passes; the transaction type must be one of `restock`/`sale`/`adjustment`;
a low-stock warning is attached when the new quantity is at or below the
reorder level. -/
def inventory_service_update_stock (st : DBState) (item_id : Nat) (quantity_change : Int)
    (transaction_type : String) (user_id : Nat) (notes : Option String) :
    Except String (InventoryItemRec × Option String × DBState) :=
  if ¬ (transaction_type = "restock" ∨ transaction_type = "sale"
        ∨ transaction_type = "adjustment") then
    .error "Invalid transaction type. Must be one of: restock, sale, adjustment"
  else
    match inventory_dao_update_quantity st item_id quantity_change transaction_type
        user_id notes with
    | none => .error "Inventory item not found"
    | some (item, st') =>
      let warning : Option String :=
        if item.quantity ≤ item.reorder_level then
          some (update_stock_warning item.quantity item.reorder_level)
        else none
      .ok (item, warning, st')

/-- The `low_stock` alert bucket of `InventoryService.get_inventory_status`
(inventory_service.py line 120): every item with quantity at or below its
reorder level, including quantity zero. -/
def low_stock_items (items : List InventoryItemRec) : List InventoryItemRec :=
  items.filter (fun it => it.quantity ≤ it.reorder_level)

/-- The `out_of_stock` alert bucket of
`InventoryService.get_inventory_status` (inventory_service.py line 123). -/
def out_of_stock_items (items : List InventoryItemRec) : List InventoryItemRec :=
  items.filter (fun it => it.quantity == 0)

/-- The per-item `status` string of `get_inventory_status`
(inventory_service.py lines 136-137). -/
def inventory_item_status (it : InventoryItemRec) : String :=
  if it.quantity == 0 then "out_of_stock"
  else if it.quantity ≤ it.reorder_level then "low_stock"
  else "normal"

/-! ### SaleDAO and SalesService (`src/dal/sale_dao.py`, `src/bll/sales_service.py`) -/

/-- One element of the `items` list handed to sale creation: keys
`inventory_item_id`, `quantity`, `unit_price`. -/
structure SaleLine where
  inventory_item_id : Nat
  quantity : Int
  unit_price : Rat
  deriving Repr, DecidableEq

/-- The low-stock warning built inside `SaleDAO.create_sale`
(sale_dao.py lines 68-71); it reports the post-sale stock but not the
reorder level. -/
def sale_low_stock_warning (name : String) (quantity : Int) : String :=
  "Low stock alert: " ++ name ++ " (Current stock: " ++ toString quantity ++ ")"

/-- The per-line inventory audit row of `SaleDAO.create_sale`
(sale_dao.py lines 74-82). -/
def sale_line_audit (user_id sale_id : Nat) (line : SaleLine) : AuditLogRec :=
  { user_id := some user_id, action := "UPDATE", table_name := "inventory_items",
    record_id := some line.inventory_item_id,
    details := "Reduced quantity by " ++ toString line.quantity
      ++ " due to sale " ++ toString sale_id }

/-- The session contents accumulated by the per-line loop of
`SaleDAO.create_sale` before the final commit. -/
structure SaleSession where
  inventory : List InventoryItemRec
  sale_items : List SaleItemRec
  audits : List AuditLogRec
  warnings : List String
  deriving Repr, DecidableEq

/-- The loop body of `SaleDAO.create_sale` (sale_dao.py lines 41-82):
for each line, look the item up (raising when absent), check stock
(raising when insufficient), add the `SaleItem`, decrement the item's
quantity, append a low-stock warning when the new quantity is at or
below the reorder level, and add the per-line audit row. -/
def process_sale_lines (user_id sale_id : Nat) :
    List SaleLine → SaleSession → Except String SaleSession
  | [], s => .ok s
  | line :: rest, s =>
    match s.inventory.find? (fun it => it.id == line.inventory_item_id) with
    | none =>
      .error ("Inventory item " ++ toString line.inventory_item_id ++ " not found")
    | some item =>
      if item.quantity < line.quantity then
        .error ("Insufficient stock for " ++ item.name ++ ". Available: "
          ++ toString item.quantity ++ ", Requested: " ++ toString line.quantity)
      else
        process_sale_lines user_id sale_id rest
          { inventory := updateFirstBy (fun it => it.id == line.inventory_item_id)
              (fun it => { it with quantity := it.quantity - line.quantity }) s.inventory
            sale_items := s.sale_items ++
              [{ sale_id := sale_id, inventory_item_id := line.inventory_item_id,
                 quantity := line.quantity, unit_price := line.unit_price }]
            audits := s.audits ++ [sale_line_audit user_id sale_id line]
            warnings := s.warnings ++
              (if item.quantity - line.quantity ≤ item.reorder_level then
                [sale_low_stock_warning item.name (item.quantity - line.quantity)]
               else []) }

/-- `SaleDAO.create_sale` (sale_dao.py lines 12-95): the total is
`Σ quantity × unit_price` over the supplied lines, the sale row is
flushed to obtain its id, the per-line loop runs, one final sale audit
row is added, and everything commits together.  A raise inside the loop
reaches the caller before any commit, so the transactional scope rolls
the session back and the committed state is unchanged
(an `Except.error` result). -/
def sale_dao_create_sale (st : DBState) (user_id : Nat) (items : List SaleLine)
    (payment_method : String) (notes : Option String) :
    Except String (SaleRec × List String × DBState) :=
  let total_amount : Rat := (items.map (fun l => (l.quantity : Rat) * l.unit_price)).sum
  let sale : SaleRec :=
    { id := st.next_sale_id, user_id := user_id, total_amount := total_amount,
      payment_method := payment_method, notes := notes }
  match process_sale_lines user_id sale.id items
      { inventory := st.inventory, sale_items := [], audits := [], warnings := [] } with
  | .error e => .error e
  | .ok s =>
    .ok (sale, s.warnings,
      { st with
        inventory := s.inventory
        sales := st.sales ++ [sale]
        sale_items := st.sale_items ++ s.sale_items
        audit_logs := st.audit_logs ++ s.audits ++
          [{ user_id := some user_id, action := "CREATE", table_name := "sales",
             record_id := some sale.id,
             details := "Created sale: Total amount " ++ toString total_amount }]
        next_sale_id := st.next_sale_id + 1 })

/-- `SaleDAO.void_sale` (sale_dao.py lines 300-337): restore each line's
quantity onto its inventory item, write one restoration audit row per
line and one VOID row, then delete the sale items and the sale. -/
def sale_dao_void_sale (st : DBState) (sale_id user_id : Nat) (reason : String) :
    Bool × DBState :=
  match st.sales.find? (fun s => s.id == sale_id) with
  | none => (false, st)
  | some _ =>
    let line_items := st.sale_items.filter (fun si => si.sale_id == sale_id)
    (true, { st with
      inventory := line_items.foldl (fun inv si =>
        updateFirstBy (fun it => it.id == si.inventory_item_id)
          (fun it => { it with quantity := it.quantity + si.quantity }) inv) st.inventory
      sales := st.sales.filter (fun s => !(s.id == sale_id))
      sale_items := st.sale_items.filter (fun si => !(si.sale_id == sale_id))
      audit_logs := st.audit_logs ++
        line_items.map (fun si =>
          { user_id := some user_id, action := "UPDATE", table_name := "inventory_items",
            record_id := some si.inventory_item_id,
            details := "Restored quantity " ++ toString si.quantity
              ++ " due to void of sale " ++ toString sale_id }) ++
        [{ user_id := some user_id, action := "VOID", table_name := "sales",
           record_id := some sale_id, details := "Voided sale: " ++ reason }] })

/-- The validation loop of `SalesService.create_sale`
(sales_service.py lines 37-60): per line, the quantity validator
(rejecting negatives), the amount validator (rejecting non-positive unit
prices), an existence check through `InventoryDAO.get_item_by_id`, and a
stock-availability check — all before the DAO is invoked. -/
def validate_sale_lines (st : DBState) : List SaleLine → Except String Unit
  | [] => .ok ()
  | l :: rest =>
    if l.quantity < 0 then
      .error ("Invalid quantity for item " ++ toString l.inventory_item_id
        ++ ": Quantity cannot be negative")
    else if l.unit_price ≤ 0 then
      .error ("Invalid unit price for item " ++ toString l.inventory_item_id
        ++ ": Amount must be greater than 0")
    else
      match inventory_dao_get_item_by_id st l.inventory_item_id with
      | none => .error ("Invalid inventory item ID: " ++ toString l.inventory_item_id)
      | some item =>
        if item.quantity < l.quantity then
          .error ("Insufficient stock for " ++ item.name ++ ". Available: "
            ++ toString item.quantity ++ ", Requested: " ++ toString l.quantity)
        else validate_sale_lines st rest

/-- `SalesService.create_sale` (sales_service.py lines 19-76): validate
every line, then delegate to `SaleDAO.create_sale`; any raise is
re-raised to the caller. -/
def sales_service_create_sale (st : DBState) (user_id : Nat) (items : List SaleLine)
    (payment_method : String) (notes : Option String) :
    Except String (SaleRec × List String × DBState) :=
  match validate_sale_lines st items with
  | .error e => .error e
  | .ok _ => sale_dao_create_sale st user_id items payment_method notes

/-- The committed database state after a call embedded as `Except`: a
raise means no commit happened and `session_scope` rolled the open
transaction back, leaving the pre-call state. -/
def committed_state (st : DBState) (r : Except String (SaleRec × List String × DBState)) :
    DBState :=
  match r with
  | .ok (_, _, st') => st'
  | .error _ => st

/-- Whether an embedded call raised. -/
def raised (r : Except String (SaleRec × List String × DBState)) : Bool :=
  match r with
  | .ok _ => false
  | .error _ => true

/-! ### Derived forms used to reason about quantity updates -/

/-- Net effect on the inventory table of one in-place quantity change of
`d` on the first row with the given id. -/
def adjust_quantity (inv : List InventoryItemRec) (item_id : Nat) (d : Int) :
    List InventoryItemRec :=
  updateFirstBy (fun it => it.id == item_id)
    (fun it => { it with quantity := it.quantity + d }) inv

/-- The on-hand quantity the session reads back for an item id. -/
def quantity_of (inv : List InventoryItemRec) (item_id : Nat) : Option Int :=
  (inv.find? (fun it => it.id == item_id)).map (fun it => it.quantity)

/-- The `SaleItem` row created for one line (sale_dao.py lines 55-61). -/
def sale_item_of_line (sale_id : Nat) (l : SaleLine) : SaleItemRec :=
  { sale_id := sale_id, inventory_item_id := l.inventory_item_id,
    quantity := l.quantity, unit_price := l.unit_price }

/-- The inventory after the per-line decrements of a successful sale. -/
def apply_sale_decrements (inv : List InventoryItemRec) (lines : List SaleLine) :
    List InventoryItemRec :=
  lines.foldl (fun acc l => adjust_quantity acc l.inventory_item_id (-l.quantity)) inv

/-- The inventory after `void_sale` restores each line's quantity. -/
def apply_sale_restores (inv : List InventoryItemRec) (lines : List SaleLine) :
    List InventoryItemRec :=
  lines.foldl (fun acc l => adjust_quantity acc l.inventory_item_id l.quantity) inv

/-! ### Concrete fixtures used by witnesses and counterexamples -/

/-- A registered active user whose password is `"a"`, hashed with the
identity digest under salt `"b"`. -/
def wUser : UserRec :=
  { id := 1, username := "alice", email := "alice@test.com",
    password_hash := hash_password id ['b'] ['a'], role := "staff", is_active := true,
    last_login := none, reset_token := none, reset_token_expiry := none }

/-- An in-stock item whose reorder level is above its quantity minus one,
so a one-unit sale triggers the low-stock warning. -/
def wItem : InventoryItemRec :=
  { id := 1, name := "X", description := "d", quantity := 3, unit_cost := 2,
    reorder_level := 7 }

/-- An out-of-stock item (quantity 0, reorder level 5). -/
def wItemZero : InventoryItemRec :=
  { id := 2, name := "Z", description := "d", quantity := 0, unit_cost := 1,
    reorder_level := 5 }

/-- A small committed database: one active user, one item. -/
def wState : DBState :=
  { users := [wUser], inventory := [wItem], sales := [], sale_items := [],
    inventory_transactions := [], audit_logs := [], next_sale_id := 1, next_item_id := 3 }

/-- The same database with the user deactivated in place. -/
def wStateInactive : DBState :=
  { wState with users := [{ wUser with is_active := false }] }

/-- A one-unit sale line for the fixture item at unit price 4. -/
def wLine : SaleLine := { inventory_item_id := 1, quantity := 1, unit_price := 4 }

/-- A sale line requesting more units than the fixture item has on hand. -/
def wLineTooMany : SaleLine := { inventory_item_id := 1, quantity := 9, unit_price := 4 }

/-- The database state after `update_stock` removes one unit of the
fixture item as a `sale` movement. -/
def wStateUpd : DBState :=
  { users := [wUser]
    inventory := [{ wItem with quantity := 2 }]
    sales := []
    sale_items := []
    inventory_transactions :=
      [{ inventory_item_id := some 1, transaction_type := "sale", quantity := -1,
         user_id := 1, notes := none }]
    audit_logs :=
      [{ user_id := some 1, action := "UPDATE", table_name := "inventory_items",
         record_id := some 1, details := "Updated quantity by -1: sale" }]
    next_sale_id := 1
    next_item_id := 3 }

/-- The total amount `create_sale` computes for the single line `wLine`
(kept in unevaluated form: the rational operations of the library are
irreducible, so the fixture repeats the computed term). -/
def wTotal : Rat := ([wLine].map (fun l => (l.quantity : Rat) * l.unit_price)).sum

/-- The sale row `create_sale` produces for `wLine` on `wState`. -/
def wSale : SaleRec :=
  { id := 1, user_id := 1, total_amount := wTotal, payment_method := "cash", notes := none }

/-- The database state after selling `wLine` on `wState`. -/
def wState1 : DBState :=
  { users := [wUser]
    inventory := [{ wItem with quantity := 2 }]
    sales := [wSale]
    sale_items := [{ sale_id := 1, inventory_item_id := 1, quantity := 1, unit_price := 4 }]
    inventory_transactions := []
    audit_logs :=
      [{ user_id := some 1, action := "UPDATE", table_name := "inventory_items",
         record_id := some 1, details := "Reduced quantity by 1 due to sale 1" },
       { user_id := some 1, action := "CREATE", table_name := "sales",
         record_id := some 1, details := "Created sale: Total amount " ++ toString wTotal }]
    next_sale_id := 2
    next_item_id := 3 }

/-! ### Lemmas about `splitOnDollar` and the password utilities -/

theorem splitOnDollar_ne_nil (l : List Char) : splitOnDollar l ≠ [] := by
  induction l with
  | nil => simp [splitOnDollar]
  | cons c rest ih =>
    simp only [splitOnDollar]
    rcases h : splitOnDollar rest with _ | ⟨p, ps⟩
    · exact absurd h ih
    · by_cases hc : c = '$' <;> simp [hc]

theorem splitOnDollar_of_no_dollar {l : List Char} (h : '$' ∉ l) : splitOnDollar l = [l] := by
  induction l with
  | nil => simp [splitOnDollar]
  | cons c rest ih =>
    have hc : c ≠ '$' := fun hc => h (hc ▸ List.mem_cons_self c rest)
    have hrest : '$' ∉ rest := fun hm => h (List.mem_cons_of_mem c hm)
    simp only [splitOnDollar, ih hrest]
    simp [hc]

theorem splitOnDollar_salt {salt : List Char} (t : List Char) (h : '$' ∉ salt) :
    splitOnDollar (salt ++ '$' :: t) = salt :: splitOnDollar t := by
  induction salt with
  | nil =>
    simp only [List.nil_append, splitOnDollar]
    rcases ht : splitOnDollar t with _ | ⟨p, ps⟩
    · exact absurd ht (splitOnDollar_ne_nil t)
    · simp
  | cons c s ih =>
    have hc : c ≠ '$' := fun hc => h (hc ▸ List.mem_cons_self c s)
    have hs : '$' ∉ s := fun hm => h (List.mem_cons_of_mem c hm)
    simp only [List.cons_append, splitOnDollar, List.append_eq]
    rw [ih hs]
    simp [hc]

theorem verify_hash_same_salt {H : List Char → List Char} {salt p : List Char}
    (hs : '$' ∉ salt) (hh : '$' ∉ H (p ++ salt)) :
    verify_password H p (hash_password H salt p) = true := by
  unfold verify_password hash_password
  rw [splitOnDollar_salt _ hs, splitOnDollar_of_no_dollar hh]
  simp

theorem verify_hash_wrong_password {H : List Char → List Char} {salt p p2 : List Char}
    (hs : '$' ∉ salt) (hh : '$' ∉ H (p ++ salt)) (hinj : Function.Injective H)
    (hne : p2 ≠ p) : verify_password H p2 (hash_password H salt p) = false := by
  unfold verify_password hash_password
  rw [splitOnDollar_salt _ hs, splitOnDollar_of_no_dollar hh]
  simp only [beq_eq_false_iff_ne, ne_eq]
  intro heq
  exact hne (List.append_cancel_right (hinj heq))

theorem hash_distinct_salts {H : List Char → List Char} {salt salt2 p : List Char}
    (hs : '$' ∉ salt) (hs2 : '$' ∉ salt2) (hss : salt ≠ salt2) :
    hash_password H salt p ≠ hash_password H salt2 p := by
  intro heq
  have h1 := congrArg splitOnDollar heq
  unfold hash_password at h1
  rw [splitOnDollar_salt _ hs, splitOnDollar_salt _ hs2] at h1
  exact hss (List.head_eq_of_cons_eq h1)

theorem verify_malformed {H : List Char → List Char} {p bad : List Char}
    (hbad : (splitOnDollar bad).length ≠ 2) : verify_password H p bad = false := by
  unfold verify_password
  rcases h : splitOnDollar bad with _ | ⟨a, _ | ⟨b, _ | ⟨c, t⟩⟩⟩
  · rfl
  · rfl
  · exact absurd (by rw [h]; rfl) hbad
  · rfl

/-- C4: `verify_password(P, hash_password(P))` is true; for an injective
digest, verification of any other password against that stored value is
false; hashing the same password under two different salts yields two
different stored strings, both of which verify against the password; and
a stored value that does not split into exactly a salt and a hash on `'$'`
makes `verify_password` return false (the `ValueError` handler) rather
than raise. -/
theorem C4_password_round_trip (H : List Char → List Char) (p p2 salt salt2 bad : List Char)
    (hs : '$' ∉ salt) (hs2 : '$' ∉ salt2)
    (hh : '$' ∉ H (p ++ salt)) (hh2 : '$' ∉ H (p ++ salt2))
    (hinj : Function.Injective H) (hne : p2 ≠ p) (hss : salt ≠ salt2)
    (hbad : (splitOnDollar bad).length ≠ 2) :
    verify_password H p (hash_password H salt p) = true ∧
    verify_password H p2 (hash_password H salt p) = false ∧
    hash_password H salt p ≠ hash_password H salt2 p ∧
    verify_password H p (hash_password H salt2 p) = true ∧
    verify_password H p bad = false :=
  ⟨verify_hash_same_salt hs hh,
   verify_hash_wrong_password hs hh hinj hne,
   hash_distinct_salts hs hs2 hss,
   verify_hash_same_salt hs2 hh2,
   verify_malformed hbad⟩

/-- Witness for C4 at the digest `id`, passwords `"a"`/`"c"`, salts
`"b"`/`"d"`, and the malformed stored value `"x"`. -/
theorem C4_password_round_trip_witness :
    verify_password id ['a'] (hash_password id ['b'] ['a']) = true ∧
    verify_password id ['c'] (hash_password id ['b'] ['a']) = false ∧
    hash_password id ['b'] ['a'] ≠ hash_password id ['d'] ['a'] ∧
    verify_password id ['a'] (hash_password id ['d'] ['a']) = true ∧
    verify_password id ['a'] ['x'] = false :=
  C4_password_round_trip id ['a'] ['c'] ['b'] ['d'] ['x']
    (by decide) (by decide) (by decide) (by decide)
    Function.injective_id (by decide) (by decide) (by decide)

/-- C8 counterexample: a token issued at time 0 and checked two hours
later — a full hour after the claimed one-hour validity has elapsed — is
still accepted and yields the embedded user id, because the utility's
own expiry constant is `timedelta(hours=24)` (security.py line 27), not
one hour. -/
theorem C8_counterexample_two_hours :
    3600 ≤ 7200 ∧ verify_reset_token 7200 (generate_reset_token 0 42) = some 42 := by
  decide

/-- C8 (amended): the signed reset token has a 24-hour validity:
`verify_reset_token` returns the embedded user id while at most 24 hours
have elapsed since issuance and returns no value once more than 24 hours
have elapsed. -/
theorem C8_reset_token_24h_validity (issued now user_id : Nat) :
    verify_reset_token now (generate_reset_token issued user_id) =
      if issued + 24 * 3600 < now then none else some user_id := by
  unfold verify_reset_token generate_reset_token
  by_cases h : issued + 24 * 3600 < now <;> simp [h]

/-- C7: whenever the requested email belongs to an active user,
`UserService.initiate_password_reset` does not return a token: the call
`generate_reset_token()` on user_service.py line 100 omits the required
`user_id` argument of security.py line 25, so a `TypeError` is raised
and re-raised before any token or expiry is stored; only the
no-matching-user path returns normally (with no value and no change). -/
theorem C7_initiate_password_reset_never_returns_token (st : DBState) (email : String) :
    (∀ u, user_dao_get_user_by_email st email = some u →
      user_service_initiate_password_reset st email =
        .error "TypeError: generate_reset_token() missing 1 required positional argument: user_id") ∧
    (user_dao_get_user_by_email st email = none →
      user_service_initiate_password_reset st email = .ok (none, st)) := by
  constructor
  · intro u hu
    unfold user_service_initiate_password_reset
    rw [hu]
  · intro hnone
    unfold user_service_initiate_password_reset
    rw [hnone]

/-- Witness for C7: the fixture user's email raises, an unknown email
returns no value and leaves the state unchanged. -/
theorem C7_witness :
    user_service_initiate_password_reset wState "alice@test.com" =
      .error "TypeError: generate_reset_token() missing 1 required positional argument: user_id" ∧
    user_service_initiate_password_reset wState "nobody@test.com" = .ok (none, wState) :=
  ⟨(C7_initiate_password_reset_never_returns_token wState "alice@test.com").1 wUser (by decide),
   (C7_initiate_password_reset_never_returns_token wState "nobody@test.com").2 (by decide)⟩

/-! ### Lemmas about user lookup -/

theorem user_eq_of_username_eq {l : List UserRec}
    (hnodup : (l.map (fun u => u.username)).Nodup) {x y : UserRec}
    (hx : x ∈ l) (hy : y ∈ l) (hxy : x.username = y.username) : x = y :=
  List.inj_on_of_nodup_map hnodup hx hy hxy

theorem get_user_by_username_none_of_inactive {st : DBState} {u : UserRec}
    (hnodup : (st.users.map (fun v => v.username)).Nodup)
    (hm : u ∈ st.users) (hinact : u.is_active = false) :
    user_dao_get_user_by_username st u.username = none := by
  unfold user_dao_get_user_by_username
  rw [List.find?_eq_none]
  intro x hx
  simp only [Bool.and_eq_true, beq_iff_eq, not_and]
  intro hxn
  have hxu : x = u := user_eq_of_username_eq hnodup hx hm hxn
  rw [hxu, hinact]
  simp

/-- C10: `AuthService.login` never produces the "Account is deactivated"
error: `UserDAO.get_user_by_username` filters on `is_active`, so a row
with `is_active` false is reported as absent and login answers with the
same generic "Invalid username or password" result as for a username
that does not exist at all. -/
theorem C10_deactivated_branch_unreachable (H : List Char → List Char) (st : DBState)
    (username : String) (password : List Char) (now : Nat) (u : UserRec)
    (hnodup : (st.users.map (fun v => v.username)).Nodup)
    (hm : u ∈ st.users) (hn : u.username = username) (hinact : u.is_active = false) :
    (∀ st2 : DBState, ∀ n2 : String, ∀ pw2 : List Char,
      (auth_service_login H st2 n2 pw2 now).1.error_message ≠ some "Account is deactivated") ∧
    user_dao_get_user_by_username st username = none ∧
    auth_service_login H st username password now =
      ({ success := false, user_data := none,
         error_message := some "Invalid username or password" }, st) := by
  have hgone : user_dao_get_user_by_username st username = none := by
    rw [← hn]; exact get_user_by_username_none_of_inactive hnodup hm hinact
  refine ⟨?_, hgone, ?_⟩
  · intro st2 n2 pw2
    unfold auth_service_login user_dao_get_user_by_username
    rcases hfind : st2.users.find? (fun u => u.username == n2 && u.is_active) with _ | v
    · rw [hfind]; simp
    · rw [hfind]
      have hv := List.find?_some hfind
      simp only [Bool.and_eq_true, beq_iff_eq] at hv
      by_cases hver : verify_password H pw2 v.password_hash = false <;>
        simp [hv.2, hver]
  · unfold auth_service_login
    rw [hgone]

/-- Witness for C10 on the fixture database whose only user is
deactivated. -/
theorem C10_witness :
    (∀ st2 : DBState, ∀ n2 : String, ∀ pw2 : List Char,
      (auth_service_login id st2 n2 pw2 3).1.error_message ≠ some "Account is deactivated") ∧
    user_dao_get_user_by_username wStateInactive "alice" = none ∧
    auth_service_login id wStateInactive "alice" ['a'] 3 =
      ({ success := false, user_data := none,
         error_message := some "Invalid username or password" }, wStateInactive) :=
  C10_deactivated_branch_unreachable id wStateInactive "alice" ['a'] 3
    { wUser with is_active := false }
    (by decide) (by decide) (by decide) (by decide)

/-! ### Algebra of in-place quantity adjustments -/

theorem updateFirstBy_sub_eq_adjust (inv : List InventoryItemRec) (i : Nat) (q : Int) :
    updateFirstBy (fun it => it.id == i)
      (fun it => { it with quantity := it.quantity - q }) inv = adjust_quantity inv i (-q) := by
  unfold adjust_quantity
  simp only [sub_eq_add_neg]

theorem adjust_adjust_same (inv : List InventoryItemRec) (i : Nat) (d e : Int) :
    adjust_quantity (adjust_quantity inv i d) i e = adjust_quantity inv i (d + e) := by
  induction inv with
  | nil => rfl
  | cons x xs ih =>
    by_cases hx : x.id = i
    · subst hx
      simp [adjust_quantity, updateFirstBy, add_assoc]
    · simp only [adjust_quantity] at ih ⊢
      simp [updateFirstBy, hx, ih]

theorem adjust_comm (inv : List InventoryItemRec) (i j : Nat) (d e : Int) :
    adjust_quantity (adjust_quantity inv i d) j e
      = adjust_quantity (adjust_quantity inv j e) i d := by
  by_cases hij : i = j
  · subst hij
    rw [adjust_adjust_same, adjust_adjust_same, add_comm]
  · induction inv with
    | nil => rfl
    | cons x xs ih =>
      by_cases hxi : x.id = i <;> by_cases hxj : x.id = j
      · exact absurd (hxi ▸ hxj) hij
      · subst hxi
        simp [adjust_quantity, updateFirstBy, hxj]
      · subst hxj
        simp [adjust_quantity, updateFirstBy, hxi]
      · simp only [adjust_quantity] at ih ⊢
        simp [updateFirstBy, hxi, hxj, ih]

theorem updateFirstBy_id (p : α → Bool) (xs : List α) :
    updateFirstBy p (fun x => x) xs = xs := by
  induction xs with
  | nil => rfl
  | cons x xs ih =>
    by_cases hx : p x <;> simp [updateFirstBy, hx, ih]

theorem adjust_zero (inv : List InventoryItemRec) (i : Nat) :
    adjust_quantity inv i 0 = inv := by
  have hfun : (fun it : InventoryItemRec => ({ it with quantity := it.quantity + 0 }
      : InventoryItemRec)) = fun it => it := by
    funext it
    cases it
    simp
  unfold adjust_quantity
  rw [hfun, updateFirstBy_id]

theorem adjust_foldl_comm (lines : List SaleLine) (f : SaleLine → Int)
    (inv : List InventoryItemRec) (i : Nat) (d : Int) :
    adjust_quantity
        (lines.foldl (fun acc l => adjust_quantity acc l.inventory_item_id (f l)) inv) i d
      = lines.foldl (fun acc l => adjust_quantity acc l.inventory_item_id (f l))
          (adjust_quantity inv i d) := by
  induction lines generalizing inv with
  | nil => rfl
  | cons l L ih =>
    simp only [List.foldl_cons]
    rw [ih, adjust_comm]

theorem restores_after_decrements (lines : List SaleLine) (inv : List InventoryItemRec) :
    apply_sale_restores (apply_sale_decrements inv lines) lines = inv := by
  induction lines generalizing inv with
  | nil => rfl
  | cons l L ih =>
    unfold apply_sale_restores apply_sale_decrements at ih ⊢
    simp only [List.foldl_cons]
    rw [adjust_foldl_comm, adjust_adjust_same, neg_add_cancel, adjust_zero, ih]

theorem quantity_of_adjust_eq (inv : List InventoryItemRec) (i : Nat) (d : Int) :
    quantity_of (adjust_quantity inv i d) i = (quantity_of inv i).map (fun q => q + d) := by
  induction inv with
  | nil => rfl
  | cons x xs ih =>
    by_cases hx : x.id = i
    · subst hx
      simp [quantity_of, adjust_quantity, updateFirstBy]
    · simp only [quantity_of, adjust_quantity] at ih ⊢
      simp [updateFirstBy, hx, ih]

theorem quantity_of_adjust_ne (inv : List InventoryItemRec) {i j : Nat} (hji : j ≠ i)
    (d : Int) : quantity_of (adjust_quantity inv i d) j = quantity_of inv j := by
  induction inv with
  | nil => rfl
  | cons x xs ih =>
    by_cases hxi : x.id = i
    · subst hxi
      have hxj : ¬ x.id = j := fun hxj => hji hxj.symm
      simp [quantity_of, adjust_quantity, updateFirstBy, hxj]
    · by_cases hxj : x.id = j
      · subst hxj
        simp [quantity_of, adjust_quantity, updateFirstBy, hxi]
      · simp only [quantity_of, adjust_quantity] at ih ⊢
        simp [updateFirstBy, hxi, hxj, ih]

theorem quantity_of_foldl_not_mem {lines : List SaleLine} (f : SaleLine → Int) {j : Nat}
    (hj : j ∉ lines.map (fun l => l.inventory_item_id)) (inv : List InventoryItemRec) :
    quantity_of
        (lines.foldl (fun acc l => adjust_quantity acc l.inventory_item_id (f l)) inv) j
      = quantity_of inv j := by
  induction lines generalizing inv with
  | nil => rfl
  | cons l L ih =>
    simp only [List.map_cons, List.mem_cons, not_or] at hj
    simp only [List.foldl_cons]
    rw [ih hj.2, quantity_of_adjust_ne _ hj.1]

theorem quantity_of_foldl_nodup {lines : List SaleLine} (f : SaleLine → Int)
    (hnodup : (lines.map (fun l => l.inventory_item_id)).Nodup)
    {l : SaleLine} (hl : l ∈ lines) (inv : List InventoryItemRec) :
    quantity_of
        (lines.foldl (fun acc m => adjust_quantity acc m.inventory_item_id (f m)) inv)
        l.inventory_item_id
      = (quantity_of inv l.inventory_item_id).map (fun q => q + f l) := by
  induction lines generalizing inv with
  | nil => cases hl
  | cons a L ih =>
    simp only [List.map_cons, List.nodup_cons] at hnodup
    rcases List.mem_cons.mp hl with rfl | hmem
    · simp only [List.foldl_cons]
      rw [quantity_of_foldl_not_mem f hnodup.1, quantity_of_adjust_eq]
    · have hne : l.inventory_item_id ≠ a.inventory_item_id := by
        intro he
        exact hnodup.1 (he ▸ List.mem_map_of_mem (fun m => m.inventory_item_id) hmem)
      simp only [List.foldl_cons]
      rw [ih hnodup.2 hmem, quantity_of_adjust_ne _ hne]

/-! ### Characterization of the sale-creation loop -/

theorem process_sale_lines_ok {user_id sale_id : Nat} :
    ∀ {lines : List SaleLine} {s s2 : SaleSession},
    process_sale_lines user_id sale_id lines s = .ok s2 →
    s2.inventory = apply_sale_decrements s.inventory lines ∧
    s2.sale_items = s.sale_items ++ lines.map (sale_item_of_line sale_id) ∧
    s2.audits = s.audits ++ lines.map (sale_line_audit user_id sale_id) ∧
    (∀ w ∈ s2.warnings, w ∈ s.warnings ∨ ∃ name q, w = sale_low_stock_warning name q) := by
  intro lines
  induction lines with
  | nil =>
    intro s s2 h
    cases h
    exact ⟨rfl, by simp, by simp, fun w hw => Or.inl hw⟩
  | cons l L ih =>
    intro s s2 h
    unfold process_sale_lines at h
    rcases hfind : s.inventory.find? (fun it => it.id == l.inventory_item_id) with _ | item
    · rw [hfind] at h
      exact absurd h (by simp)
    · rw [hfind] at h
      dsimp only at h
      by_cases hq : item.quantity < l.quantity
      · rw [if_pos hq] at h
        exact absurd h (by simp)
      · rw [if_neg hq] at h
        obtain ⟨h1, h2, h3, h4⟩ := ih h
        refine ⟨?_, ?_, ?_, ?_⟩
        · rw [h1]
          unfold apply_sale_decrements
          simp only [List.foldl_cons, updateFirstBy_sub_eq_adjust]
        · rw [h2]
          simp [sale_item_of_line]
        · rw [h3]
          simp
        · intro w hw
          rcases h4 w hw with hmem | hshape
          · rcases List.mem_append.mp hmem with hs | hnew
            · exact Or.inl hs
            · right
              by_cases hwarn : item.quantity - l.quantity ≤ item.reorder_level
              · rw [if_pos hwarn] at hnew
                simp only [List.mem_singleton] at hnew
                exact ⟨item.name, item.quantity - l.quantity, hnew⟩
              · rw [if_neg hwarn] at hnew
                cases hnew
          · exact Or.inr hshape

theorem create_sale_ok {st : DBState} {user_id : Nat} {items : List SaleLine}
    {pm : String} {notes : Option String} {sale : SaleRec} {warns : List String}
    {st1 : DBState}
    (h : sale_dao_create_sale st user_id items pm notes = .ok (sale, warns, st1)) :
    sale = { id := st.next_sale_id, user_id := user_id,
             total_amount := (items.map (fun l => (l.quantity : Rat) * l.unit_price)).sum,
             payment_method := pm, notes := notes } ∧
    st1.inventory = apply_sale_decrements st.inventory items ∧
    st1.sales = st.sales ++ [sale] ∧
    st1.sale_items = st.sale_items ++ items.map (sale_item_of_line st.next_sale_id) ∧
    st1.audit_logs.length = st.audit_logs.length + items.length + 1 ∧
    (∀ w ∈ warns, ∃ name q, w = sale_low_stock_warning name q) := by
  unfold sale_dao_create_sale at h
  dsimp only at h
  rcases hp : process_sale_lines user_id st.next_sale_id items
      { inventory := st.inventory, sale_items := [], audits := [], warnings := [] } with e | s
  · rw [hp] at h
    exact absurd h (by simp)
  · rw [hp] at h
    dsimp only at h
    obtain ⟨h1, h2, h3, h4⟩ := process_sale_lines_ok hp
    simp only [Except.ok.injEq, Prod.mk.injEq] at h
    obtain ⟨hsale, hwarns, hst⟩ := h
    refine ⟨hsale.symm, ?_, ?_, ?_, ?_, ?_⟩
    · rw [← hst]; exact h1
    · rw [← hst, ← hsale]
    · rw [← hst]
      rw [h2]
      simp
    · rw [← hst]
      simp only [DBState.audit_logs]
      rw [h3]
      simp [add_comm, add_assoc, add_left_comm]
    · intro w hw
      rw [← hwarns] at hw
      rcases h4 w hw with hmem | hshape
      · cases hmem
      · exact hshape

/-- C1: a successful `SaleDAO.create_sale` records
`Σ quantity × unit price` as the sale's total amount and decrements each
referenced item's on-hand quantity by the line's quantity (line item ids
assumed distinct, as they come from the GUI's one-row-per-item picker);
a subsequent `void_sale` succeeds, restores the inventory to exactly its
pre-sale contents, and deletes the sale row and its sale-item rows.
Freshness of the autoincremented sale id over the pre-existing rows is
the well-formedness of the database assumed throughout. -/
theorem C1_create_then_void (st : DBState) (user_id void_user_id : Nat)
    (items : List SaleLine) (pm reason : String) (notes : Option String)
    (sale : SaleRec) (warns : List String) (st1 : DBState)
    (h : sale_dao_create_sale st user_id items pm notes = .ok (sale, warns, st1))
    (hnodup : (items.map (fun l => l.inventory_item_id)).Nodup)
    (hfresh_sales : ∀ s ∈ st.sales, s.id ≠ st.next_sale_id)
    (hfresh_items : ∀ si ∈ st.sale_items, si.sale_id ≠ st.next_sale_id) :
    sale.total_amount = (items.map (fun l => (l.quantity : Rat) * l.unit_price)).sum ∧
    (∀ l ∈ items, quantity_of st1.inventory l.inventory_item_id
      = (quantity_of st.inventory l.inventory_item_id).map (fun q => q - l.quantity)) ∧
    (sale_dao_void_sale st1 sale.id void_user_id reason).1 = true ∧
    (sale_dao_void_sale st1 sale.id void_user_id reason).2.inventory = st.inventory ∧
    (∀ s ∈ (sale_dao_void_sale st1 sale.id void_user_id reason).2.sales,
      s.id ≠ sale.id) ∧
    (∀ si ∈ (sale_dao_void_sale st1 sale.id void_user_id reason).2.sale_items,
      si.sale_id ≠ sale.id) := by
  obtain ⟨hsale, hinv, hsales, hsi, haud, hwsh⟩ := create_sale_ok h
  have hsid : sale.id = st.next_sale_id := by rw [hsale]
  have hfind2 : st1.sales.find? (fun s => s.id == sale.id) = some sale := by
    rw [hsales, List.find?_append]
    have hnone : st.sales.find? (fun s => s.id == sale.id) = none := by
      rw [List.find?_eq_none]
      intro s hs
      simp only [beq_iff_eq, hsid]
      exact hfresh_sales s hs
    rw [hnone]
    simp
  have hline_items :
      st1.sale_items.filter (fun si => si.sale_id == sale.id)
        = items.map (sale_item_of_line st.next_sale_id) := by
    rw [hsi, List.filter_append]
    have hold : st.sale_items.filter (fun si => si.sale_id == sale.id) = [] := by
      rw [List.filter_eq_nil_iff]
      intro si hsi2
      simp only [beq_iff_eq, hsid]
      exact hfresh_items si hsi2
    have hnew : (items.map (sale_item_of_line st.next_sale_id)).filter
        (fun si => si.sale_id == sale.id) = items.map (sale_item_of_line st.next_sale_id) := by
      rw [List.filter_eq_self]
      intro si hsi2
      rcases List.mem_map.mp hsi2 with ⟨l, _, rfl⟩
      simp [sale_item_of_line, hsid]
    rw [hold, hnew, List.nil_append]
  refine ⟨by rw [hsale], ?_, ?_, ?_, ?_, ?_⟩
  · intro l hl
    rw [hinv]
    unfold apply_sale_decrements
    rw [quantity_of_foldl_nodup (fun l => -l.quantity) hnodup hl]
    simp [sub_eq_add_neg]
  · unfold sale_dao_void_sale
    rw [hfind2]
  · unfold sale_dao_void_sale
    rw [hfind2]
    dsimp only
    rw [hline_items, List.foldl_map, hinv]
    exact restores_after_decrements items st.inventory
  · unfold sale_dao_void_sale
    rw [hfind2]
    dsimp only
    intro s hs
    have := (List.mem_filter.mp hs).2
    simpa using this
  · unfold sale_dao_void_sale
    rw [hfind2]
    dsimp only
    intro si hsi2
    have := (List.mem_filter.mp hsi2).2
    simpa using this

/-! ### Insufficient stock is rejected before any write -/

theorem validate_sale_lines_error_of_insufficient {st : DBState} :
    ∀ {items : List SaleLine} {l : SaleLine} {item : InventoryItemRec},
    l ∈ items →
    inventory_dao_get_item_by_id st l.inventory_item_id = some item →
    item.quantity < l.quantity →
    ∃ e, validate_sale_lines st items = .error e := by
  intro items
  induction items with
  | nil => intro l item h; cases h
  | cons a L ih =>
    intro l item hl hfind hq
    unfold validate_sale_lines
    by_cases h1 : a.quantity < 0
    · exact ⟨_, by rw [if_pos h1]⟩
    · rw [if_neg h1]
      by_cases h2 : a.unit_price ≤ 0
      · exact ⟨_, by rw [if_pos h2]⟩
      · rw [if_neg h2]
        rcases hfa : inventory_dao_get_item_by_id st a.inventory_item_id with _ | itemA
        · exact ⟨_, rfl⟩
        · dsimp only
          by_cases h3 : itemA.quantity < a.quantity
          · exact ⟨_, by rw [if_pos h3]⟩
          · rw [if_neg h3]
            rcases List.mem_cons.mp hl with rfl | hmem
            · rw [hfind] at hfa
              cases hfa
              exact absurd hq h3
            · exact ih hmem hfind hq

/-- C2: when some line of a sale request asks for more units than the
referenced item has on hand, `SalesService.create_sale` raises (its
per-line pre-check fires before `SaleDAO.create_sale` is reached) and
the committed state is exactly the pre-call state: no sale row, no
sale-item row, and no inventory change survive (all-or-nothing). -/
theorem C2_insufficient_stock_all_or_nothing (st : DBState) (user_id : Nat)
    (items : List SaleLine) (pm : String) (notes : Option String)
    (l : SaleLine) (item : InventoryItemRec)
    (hl : l ∈ items)
    (hfind : inventory_dao_get_item_by_id st l.inventory_item_id = some item)
    (hq : item.quantity < l.quantity) :
    raised (sales_service_create_sale st user_id items pm notes) = true ∧
    committed_state st (sales_service_create_sale st user_id items pm notes) = st := by
  obtain ⟨e, he⟩ := validate_sale_lines_error_of_insufficient hl hfind hq
  have hres : sales_service_create_sale st user_id items pm notes = .error e := by
    unfold sales_service_create_sale
    rw [he]
  rw [hres]
  exact ⟨rfl, rfl⟩

/-- Witness for C2: requesting nine units of the fixture item that has
three on hand. -/
theorem C2_witness :
    raised (sales_service_create_sale wState 1 [wLineTooMany] "cash" none) = true ∧
    committed_state wState (sales_service_create_sale wState 1 [wLineTooMany] "cash" none)
      = wState :=
  C2_insufficient_stock_all_or_nothing wState 1 [wLineTooMany] "cash" none
    wLineTooMany wItem (by decide) (by decide) (by decide)

/-! ### Structure of first-match updates -/

theorem updateFirstBy_decomp {p : α → Bool} {xs : List α} {x : α} (f : α → α)
    (h : xs.find? p = some x) :
    ∃ as bs, xs = as ++ x :: bs ∧ (∀ a ∈ as, ¬ p a) ∧
      updateFirstBy p f xs = as ++ f x :: bs := by
  induction xs with
  | nil => cases h
  | cons y ys ih =>
    by_cases hy : p y
    · rw [List.find?_cons_of_pos _ hy] at h
      injection h with h
      subst h
      exact ⟨[], ys, rfl, by simp, by simp [updateFirstBy, hy]⟩
    · rw [List.find?_cons_of_neg _ hy] at h
      obtain ⟨as, bs, hxs, has, hupd⟩ := ih h
      refine ⟨y :: as, bs, by rw [hxs]; rfl, ?_, by simp [updateFirstBy, hy, hupd]⟩
      intro a ha
      rcases List.mem_cons.mp ha with rfl | ha2
      · exact hy
      · exact has a ha2

theorem updateFirstBy_append_of_none {p : α → Bool} {as : List α}
    (h : ∀ a ∈ as, ¬ p a) (f : α → α) (rest : List α) :
    updateFirstBy p f (as ++ rest) = as ++ updateFirstBy p f rest := by
  induction as with
  | nil => rfl
  | cons a as2 ih =>
    have ha : ¬ p a := h a (List.mem_cons_self a as2)
    simp only [List.cons_append, updateFirstBy, ha, if_neg, Bool.false_eq_true,
      not_false_eq_true, List.append_eq]
    rw [ih (fun b hb => h b (List.mem_cons_of_mem a hb))]

/-! ### Stock buckets and low-stock warnings -/

theorem update_stock_warning_mentions_quantity (q r : Int) :
    ∃ a b, (update_stock_warning q r).data = a ++ (toString q).data ++ b :=
  ⟨"Low stock alert: Current quantity (".data,
   (") is at or below reorder level (" ++ toString r ++ ")").data,
   by simp [update_stock_warning, String.data_append, List.append_assoc]⟩

theorem update_stock_warning_mentions_reorder_level (q r : Int) :
    ∃ a b, (update_stock_warning q r).data = a ++ (toString r).data ++ b :=
  ⟨("Low stock alert: Current quantity (" ++ toString q
      ++ ") is at or below reorder level (").data,
   ")".data,
   by simp [update_stock_warning, String.data_append, List.append_assoc]⟩

theorem sale_low_stock_warning_mentions_quantity (name : String) (q : Int) :
    ∃ a b, (sale_low_stock_warning name q).data = a ++ (toString q).data ++ b :=
  ⟨("Low stock alert: " ++ name ++ " (Current stock: ").data, ")".data,
   by simp [sale_low_stock_warning, String.data_append, List.append_assoc]⟩

/-- C6 counterexample: an out-of-stock item (quantity 0) appears in the
`low_stock` alert bucket as well as the `out_of_stock` bucket, although
the claim puts it in the low-stock bucket only when its quantity is
positive; and the warning returned when a sale leaves the fixture item
at quantity 2 with reorder level 7 does not mention the reorder level
(no `'7'` occurs in it), although the claim requires both numbers. -/
theorem C6_counterexample :
    wItemZero.quantity = 0 ∧
    wItemZero ∈ low_stock_items [wItemZero] ∧
    wItemZero ∈ out_of_stock_items [wItemZero] ∧
    sale_dao_create_sale wState 1 [wLine] "cash" none
      = .ok (wSale, [sale_low_stock_warning "X" 2], wState1) ∧
    wItem.reorder_level = 7 ∧
    '7' ∉ (sale_low_stock_warning "X" 2).data :=
  ⟨by decide, by decide, by decide, by rfl, by decide, by decide⟩

/-- C6 (amended): the `low_stock` alert bucket contains exactly the
items with quantity at or below the reorder level (an out-of-stock item
appears in both buckets), the `out_of_stock` bucket exactly the items
with quantity 0, and an item above its reorder level (the level being
non-negative) is in neither; `InventoryService.update_stock` returns a
warning naming both the new quantity and the reorder level exactly when
the new quantity is at or below the reorder level; each warning of
`SaleDAO.create_sale` is a low-stock message naming the item's post-sale
stock (but not its reorder level). -/
theorem C6_stock_buckets_and_warnings :
    (∀ (items : List InventoryItemRec) (it : InventoryItemRec),
      (it ∈ low_stock_items items ↔ it ∈ items ∧ it.quantity ≤ it.reorder_level) ∧
      (it ∈ out_of_stock_items items ↔ it ∈ items ∧ it.quantity = 0) ∧
      (it ∈ items → 0 ≤ it.reorder_level → it.reorder_level < it.quantity →
        it ∉ low_stock_items items ∧ it ∉ out_of_stock_items items)) ∧
    (∀ (st : DBState) (item_id : Nat) (qc : Int) (ttype : String) (uid : Nat)
      (notes : Option String) (item : InventoryItemRec) (warn : Option String)
      (st2 : DBState),
      inventory_service_update_stock st item_id qc ttype uid notes = .ok (item, warn, st2) →
      (item.quantity ≤ item.reorder_level →
        warn = some (update_stock_warning item.quantity item.reorder_level) ∧
        (∃ a b, (update_stock_warning item.quantity item.reorder_level).data
          = a ++ (toString item.quantity).data ++ b) ∧
        (∃ a b, (update_stock_warning item.quantity item.reorder_level).data
          = a ++ (toString item.reorder_level).data ++ b)) ∧
      (item.reorder_level < item.quantity → warn = none)) ∧
    (∀ (st : DBState) (uid : Nat) (items : List SaleLine) (pm : String)
      (notes : Option String) (sale : SaleRec) (warns : List String) (st1 : DBState),
      sale_dao_create_sale st uid items pm notes = .ok (sale, warns, st1) →
      ∀ w ∈ warns, ∃ name q, w = sale_low_stock_warning name q ∧
        ∃ a b, w.data = a ++ (toString q).data ++ b) := by
  refine ⟨?_, ?_, ?_⟩
  · intro items it
    refine ⟨?_, ?_, ?_⟩
    · simp [low_stock_items, List.mem_filter]
    · simp [out_of_stock_items, List.mem_filter]
    · intro hmem hr hlt
      constructor
      · simp only [low_stock_items, List.mem_filter]
        intro hin
        exact absurd (of_decide_eq_true hin.2) (not_le.mpr hlt)
      · simp only [out_of_stock_items, List.mem_filter]
        intro hin
        have h0 : it.quantity = 0 := by
          have := hin.2
          simpa using this
        omega
  · intro st item_id qc ttype uid notes item warn st2 h
    unfold inventory_service_update_stock at h
    by_cases hty : ¬ (ttype = "restock" ∨ ttype = "sale" ∨ ttype = "adjustment")
    · rw [if_pos hty] at h
      cases h
    · rw [if_neg hty] at h
      rcases hupd : inventory_dao_update_quantity st item_id qc ttype uid notes
        with _ | ⟨item0, st0⟩
      · rw [hupd] at h
        cases h
      · rw [hupd] at h
        dsimp only at h
        simp only [Except.ok.injEq, Prod.mk.injEq] at h
        obtain ⟨hitem, hwarn, _⟩ := h
        subst hitem
        constructor
        · intro hle
          rw [← hwarn, if_pos hle]
          exact ⟨rfl, update_stock_warning_mentions_quantity _ _,
            update_stock_warning_mentions_reorder_level _ _⟩
        · intro hgt
          rw [← hwarn, if_neg (not_le.mpr hgt)]
  · intro st uid items pm notes sale warns st1 h w hw
    obtain ⟨name, q, hshape⟩ := (create_sale_ok h).2.2.2.2.2 w hw
    exact ⟨name, q, hshape, hshape ▸ sale_low_stock_warning_mentions_quantity name q⟩

/-- Witness for C6 (amended): the out-of-stock fixture item and a
one-unit stock decrement of the in-stock fixture item. -/
theorem C6_witness :
    (wItemZero ∈ low_stock_items [wItemZero]
      ↔ wItemZero ∈ [wItemZero] ∧ wItemZero.quantity ≤ wItemZero.reorder_level) ∧
    some (update_stock_warning 2 7)
      = some (update_stock_warning ({ wItem with quantity := 2 }).quantity
          ({ wItem with quantity := 2 }).reorder_level) := by
  refine ⟨(C6_stock_buckets_and_warnings.1 [wItemZero] wItemZero).1, ?_⟩
  have h := C6_stock_buckets_and_warnings.2.1 wState 1 (-1) "sale" 1 none
    ({ wItem with quantity := 2 }) (some (update_stock_warning 2 7)) wStateUpd (by rfl)
  exact (h.1 (by decide)).1

/-! ### Soft delete, authentication, and reactivation -/

/-- C5 (amended): after `UserDAO.deactivate_user` succeeds,
authentication for the user's username returns absence even with the
correct password, and after `reactivate_user` it succeeds again — but
the deactivated row is NOT retrievable through `UserDAO.get_user_by_id`
(which filters on `is_active`): it merely remains in the `users` table,
where `reactivate_user`'s unfiltered id lookup finds it.  Uniqueness of
ids and usernames (the database's unique constraints) is assumed. -/
theorem C5_soft_delete_auth (H : List Char → List Char) (st : DBState)
    (username : String) (pw : List Char) (now auid : Nat) (u : UserRec)
    (hm : u ∈ st.users) (hact : u.is_active = true) (hun : u.username = username)
    (hnodup_id : (st.users.map (fun v => v.id)).Nodup)
    (hnodup_un : (st.users.map (fun v => v.username)).Nodup)
    (hverify : verify_password H pw u.password_hash = true) :
    (user_dao_deactivate_user st u.id auid).1 = true ∧
    (user_service_authenticate_user H (user_dao_deactivate_user st u.id auid).2
      username pw now).1 = none ∧
    user_dao_get_user_by_id (user_dao_deactivate_user st u.id auid).2 u.id = none ∧
    ({ u with is_active := false } ∈ (user_dao_deactivate_user st u.id auid).2.users) ∧
    (user_dao_reactivate_user (user_dao_deactivate_user st u.id auid).2 u.id auid).1
      = true ∧
    (user_service_authenticate_user H
      (user_dao_reactivate_user (user_dao_deactivate_user st u.id auid).2 u.id auid).2
      username pw now).1.isSome = true := by
  have hfind : st.users.find? (fun v => v.id == u.id && v.is_active) = some u := by
    rcases hf : st.users.find? (fun v => v.id == u.id && v.is_active) with _ | x
    · exact absurd (by simp [hact] : (u.id == u.id && u.is_active) = true)
        (by simpa using List.find?_eq_none.mp hf u hm)
    · have hx := List.find?_some hf
      simp only [Bool.and_eq_true, beq_iff_eq] at hx
      have hxm := List.mem_of_find?_eq_some hf
      have hxu : x = u := List.inj_on_of_nodup_map hnodup_id hxm hm hx.1
      rw [hxu] at hf
      exact hf
  obtain ⟨as, bs, hsplit, hnp, hupd⟩ :=
    updateFirstBy_decomp (fun v => { v with is_active := false }) hfind
  have hids : u.id ∉ as.map (fun v => v.id) ∧ u.id ∉ bs.map (fun v => v.id) := by
    rw [hsplit] at hnodup_id
    simp only [List.map_append, List.map_cons] at hnodup_id
    have := (List.nodup_cons.mp (List.nodup_middle.mp hnodup_id)).1
    simp only [List.mem_append] at this
    exact ⟨fun hc => this (Or.inl hc), fun hc => this (Or.inr hc)⟩
  have huns : u.username ∉ as.map (fun v => v.username)
      ∧ u.username ∉ bs.map (fun v => v.username) := by
    rw [hsplit] at hnodup_un
    simp only [List.map_append, List.map_cons] at hnodup_un
    have := (List.nodup_cons.mp (List.nodup_middle.mp hnodup_un)).1
    simp only [List.mem_append] at this
    exact ⟨fun hc => this (Or.inl hc), fun hc => this (Or.inr hc)⟩
  have hdusers : (user_dao_deactivate_user st u.id auid).2.users
      = as ++ { u with is_active := false } :: bs := by
    unfold user_dao_deactivate_user user_dao_get_user_by_id
    rw [hfind]
    exact hupd
  have hd1 : (user_dao_deactivate_user st u.id auid).1 = true := by
    unfold user_dao_deactivate_user user_dao_get_user_by_id
    rw [hfind]
  have hnone_un : (as ++ { u with is_active := false } :: bs).find?
      (fun v => v.username == username && v.is_active) = none := by
    rw [List.find?_eq_none]
    intro v hv
    simp only [Bool.and_eq_true, beq_iff_eq, not_and]
    intro hvn
    rcases List.mem_append.mp hv with hva | hvc
    · exfalso
      apply huns.1
      have huv : u.username = v.username := by rw [hun, hvn]
      rw [huv]
      exact List.mem_map_of_mem (fun v => v.username) hva
    · rcases List.mem_cons.mp hvc with rfl | hvb
      · simp
      · exfalso
        apply huns.2
        have huv : u.username = v.username := by rw [hun, hvn]
        rw [huv]
        exact List.mem_map_of_mem (fun v => v.username) hvb
  refine ⟨hd1, ?_, ?_, ?_, ?_, ?_⟩
  · unfold user_service_authenticate_user user_dao_get_user_by_username
    rw [hdusers, hnone_un]
  · unfold user_dao_get_user_by_id
    rw [hdusers, List.find?_eq_none]
    intro v hv
    simp only [Bool.and_eq_true, beq_iff_eq, not_and]
    intro hvid
    rcases List.mem_append.mp hv with hva | hvc
    · exfalso
      apply hids.1
      rw [← hvid]
      exact List.mem_map_of_mem (fun v => v.id) hva
    · rcases List.mem_cons.mp hvc with rfl | hvb
      · simp
      · exfalso
        apply hids.2
        rw [← hvid]
        exact List.mem_map_of_mem (fun v => v.id) hvb
  · rw [hdusers]
    exact List.mem_append_right as (List.mem_cons_self _ _)
  · unfold user_dao_reactivate_user
    rw [hdusers]
    have hfr : (as ++ { u with is_active := false } :: bs).find? (fun v => v.id == u.id)
        = some { u with is_active := false } := by
      rw [List.find?_append]
      have hnrf : as.find? (fun v => v.id == u.id) = none := by
        rw [List.find?_eq_none]
        intro a ha
        simp only [beq_iff_eq]
        intro hc
        exact hids.1 (hc ▸ List.mem_map_of_mem (fun v => v.id) ha)
      rw [hnrf, List.find?_cons_of_pos _ (by simp)]
      rfl
    rw [hfr]
  · have hre : ({ { u with is_active := false } with is_active := true } : UserRec)
        = u := by
      cases u
      simp_all
    have hfr : (as ++ { u with is_active := false } :: bs).find? (fun v => v.id == u.id)
        = some { u with is_active := false } := by
      rw [List.find?_append]
      have hnrf : as.find? (fun v => v.id == u.id) = none := by
        rw [List.find?_eq_none]
        intro a ha
        simp only [beq_iff_eq]
        intro hc
        exact hids.1 (hc ▸ List.mem_map_of_mem (fun v => v.id) ha)
      rw [hnrf, List.find?_cons_of_pos _ (by simp)]
      rfl
    have hrusers : (user_dao_reactivate_user (user_dao_deactivate_user st u.id auid).2
        u.id auid).2.users = st.users := by
      unfold user_dao_reactivate_user
      rw [hdusers, hfr]
      dsimp only
      rw [updateFirstBy_append_of_none (fun a ha => by
        simp only [beq_iff_eq]
        intro hc
        exact hids.1 (hc ▸ List.mem_map_of_mem (fun v => v.id) ha))]
      simp only [updateFirstBy, beq_self_eq_true, if_pos]
      rw [hre, hsplit]
    have hfu : st.users.find? (fun v => v.username == username && v.is_active)
        = some u := by
      rw [hsplit, List.find?_append]
      have hna : as.find? (fun v => v.username == username && v.is_active) = none := by
        rw [List.find?_eq_none]
        intro a ha
        simp only [Bool.and_eq_true, beq_iff_eq, not_and]
        intro hc
        exfalso
        apply huns.1
        have hua : u.username = a.username := by rw [hun, hc]
        rw [hua]
        exact List.mem_map_of_mem (fun v => v.username) ha
      rw [hna, List.find?_cons_of_pos _ (by simp [hun, hact])]
      rfl
    unfold user_service_authenticate_user user_dao_get_user_by_username
    rw [hrusers, hfu]
    dsimp only
    rw [if_pos hverify]
    rfl

/-- C5 counterexample: on the fixture database, the user row is
retrievable by id while active, but after `deactivate_user` succeeds,
`UserDAO.get_user_by_id` returns absence for the same id — the claim's
"row remains retrievable by id" fails for the cited lookup. -/
theorem C5_counterexample :
    user_dao_get_user_by_id wState 1 = some wUser ∧
    (user_dao_deactivate_user wState 1 1).1 = true ∧
    user_dao_get_user_by_id (user_dao_deactivate_user wState 1 1).2 1 = none := by
  decide

/-- Witness for C5 (amended): deactivating and reactivating the fixture
user with the identity digest. -/
theorem C5_witness :
    (user_dao_deactivate_user wState wUser.id 1).1 = true ∧
    (user_service_authenticate_user id (user_dao_deactivate_user wState wUser.id 1).2
      "alice" ['a'] 3).1 = none ∧
    user_dao_get_user_by_id (user_dao_deactivate_user wState wUser.id 1).2 wUser.id
      = none ∧
    ({ wUser with is_active := false }
      ∈ (user_dao_deactivate_user wState wUser.id 1).2.users) ∧
    (user_dao_reactivate_user (user_dao_deactivate_user wState wUser.id 1).2
      wUser.id 1).1 = true ∧
    (user_service_authenticate_user id
      (user_dao_reactivate_user (user_dao_deactivate_user wState wUser.id 1).2
        wUser.id 1).2
      "alice" ['a'] 3).1.isSome = true :=
  C5_soft_delete_auth id wState "alice" ['a'] 3 1 wUser
    (by decide) (by decide) (by decide) (by decide) (by decide) (by decide)

/-! ### Item creation and the initial inventory transaction -/

/-- C9: `InventoryDAO.create_item` with a positive starting quantity
never succeeds: the `initial` transaction row captures `item.id` before
any flush, i.e. `None`, and the NOT NULL constraint on
`inventory_transactions.inventory_item_id` rejects the commit with an
`IntegrityError` — so no `initial` transaction row carrying the new
item's id is ever written (contradicting the spec and the test
`test_add_inventory_item`, which expects the call to succeed).  With
starting quantity zero (or negative) the call succeeds and writes no
transaction row. -/
theorem C9_create_item_initial_transaction (st : DBState) (name description : String)
    (quantity : Int) (unit_cost : Rat) (reorder_level : Int) (audit_user_id : Nat) :
    (0 < quantity →
      inventory_dao_create_item st name description quantity unit_cost reorder_level
          audit_user_id
        = .error "IntegrityError: NOT NULL constraint failed: inventory_transactions.inventory_item_id") ∧
    (quantity ≤ 0 →
      inventory_dao_create_item st name description quantity unit_cost reorder_level
          audit_user_id
        = .ok ({ id := st.next_item_id, name := name, description := description,
                 quantity := quantity, unit_cost := unit_cost,
                 reorder_level := reorder_level },
          { st with
            inventory := st.inventory ++
              [{ id := st.next_item_id, name := name, description := description,
                 quantity := quantity, unit_cost := unit_cost,
                 reorder_level := reorder_level }]
            inventory_transactions := st.inventory_transactions ++ []
            audit_logs := st.audit_logs ++
              [{ user_id := some audit_user_id, action := "CREATE",
                 table_name := "inventory_items", record_id := none,
                 details := "Created inventory item: " ++ name }]
            next_item_id := st.next_item_id + 1 })) := by
  constructor
  · intro hq
    unfold inventory_dao_create_item
    dsimp only
    rw [if_pos hq]
    rfl
  · intro hq
    unfold inventory_dao_create_item
    dsimp only
    rw [if_neg (not_lt.mpr hq)]
    rfl

/-- Witness for C9: creating an item with 100 starting units fails with
the constraint violation; creating one with 0 starting units succeeds
and records no transaction. -/
theorem C9_witness :
    inventory_dao_create_item wState "Tea" "d" 100 2 5 1
      = .error "IntegrityError: NOT NULL constraint failed: inventory_transactions.inventory_item_id" ∧
    inventory_dao_create_item wState "Cup" "d" 0 3 5 1
      = .ok ({ id := wState.next_item_id, name := "Cup", description := "d",
               quantity := 0, unit_cost := 3, reorder_level := 5 },
        { wState with
          inventory := wState.inventory ++
            [{ id := wState.next_item_id, name := "Cup", description := "d",
               quantity := 0, unit_cost := 3, reorder_level := 5 }]
          inventory_transactions := wState.inventory_transactions ++ []
          audit_logs := wState.audit_logs ++
            [{ user_id := some 1, action := "CREATE", table_name := "inventory_items",
               record_id := none, details := "Created inventory item: " ++ "Cup" }]
          next_item_id := wState.next_item_id + 1 }) :=
  ⟨(C9_create_item_initial_transaction wState "Tea" "d" 100 2 5 1).1 (by decide),
   (C9_create_item_initial_transaction wState "Cup" "d" 0 3 5 1).2 (by decide)⟩

/-! ### Audit coverage of the user and sale DAO mutations -/

/-- C3 counterexample: on the concrete fixture database,
`UserDAO.set_reset_token` and `UserDAO.update_last_login` commit their
mutation with zero new `AuditLog` rows, and a one-line
`SaleDAO.create_sale` writes two rows — so none of the three writes
exactly one row as claimed. -/
theorem C3_counterexample :
    (user_dao_set_reset_token wState 1 "tok" 5).1 = true ∧
    (user_dao_set_reset_token wState 1 "tok" 5).2.audit_logs.length
      = wState.audit_logs.length ∧
    (user_dao_update_last_login wState 1 9).1 = true ∧
    (user_dao_update_last_login wState 1 9).2.audit_logs.length
      = wState.audit_logs.length ∧
    sale_dao_create_sale wState 1 [wLine] "cash" none
      = .ok (wSale, ["Low stock alert: X (Current stock: 2)"], wState1) ∧
    wState1.audit_logs.length = wState.audit_logs.length + 2 ∧
    wState.audit_logs.length ≠ wState.audit_logs.length + 1 ∧
    wState.audit_logs.length + 2 ≠ wState.audit_logs.length + 1 :=
  ⟨by decide, by decide, by decide, by decide, by rfl, by decide, by decide, by decide⟩

/-- C3 (amended): `UserDAO.set_reset_token` and
`UserDAO.update_last_login` write no `AuditLog` row at all, and a
successful `SaleDAO.create_sale` with n line items writes n + 1 rows
(one per inventory decrement plus one for the sale); the
exactly-one-row contract does not hold for these three operations. -/
theorem C3_audit_rows_per_operation :
    (∀ (st : DBState) (uid : Nat) (tok : String) (expiry : Nat),
      (user_dao_set_reset_token st uid tok expiry).2.audit_logs = st.audit_logs) ∧
    (∀ (st : DBState) (uid now : Nat),
      (user_dao_update_last_login st uid now).2.audit_logs = st.audit_logs) ∧
    (∀ (st : DBState) (uid : Nat) (items : List SaleLine) (pm : String)
      (notes : Option String) (sale : SaleRec) (warns : List String) (st1 : DBState),
      sale_dao_create_sale st uid items pm notes = .ok (sale, warns, st1) →
      st1.audit_logs.length = st.audit_logs.length + items.length + 1) := by
  refine ⟨?_, ?_, ?_⟩
  · intro st uid tok expiry
    unfold user_dao_set_reset_token
    rcases hfind : user_dao_get_user_by_id st uid with _ | u <;> rfl
  · intro st uid now
    unfold user_dao_update_last_login
    rcases hfind : user_dao_get_user_by_id st uid with _ | u <;> rfl
  · intro st uid items pm notes sale warns st1 h
    exact (create_sale_ok h).2.2.2.2.1

/-- Witness for C3 (amended) on the fixture database and its one-line
sale. -/
theorem C3_witness :
    (user_dao_set_reset_token wState 1 "tok" 5).2.audit_logs = wState.audit_logs ∧
    (user_dao_update_last_login wState 1 9).2.audit_logs = wState.audit_logs ∧
    wState1.audit_logs.length = wState.audit_logs.length + [wLine].length + 1 :=
  ⟨C3_audit_rows_per_operation.1 wState 1 "tok" 5,
   C3_audit_rows_per_operation.2.1 wState 1 9,
   C3_audit_rows_per_operation.2.2 wState 1 [wLine] "cash" none wSale
     ["Low stock alert: X (Current stock: 2)"] wState1 (by rfl)⟩

/-- Witness for C1: selling one unit of the fixture item and voiding the
sale on the concrete fixture database. -/
theorem C1_witness :
    wSale.total_amount = ([wLine].map (fun l => (l.quantity : Rat) * l.unit_price)).sum ∧
    (∀ l ∈ [wLine], quantity_of wState1.inventory l.inventory_item_id
      = (quantity_of wState.inventory l.inventory_item_id).map (fun q => q - l.quantity)) ∧
    (sale_dao_void_sale wState1 wSale.id 1 "test").1 = true ∧
    (sale_dao_void_sale wState1 wSale.id 1 "test").2.inventory = wState.inventory ∧
    (∀ s ∈ (sale_dao_void_sale wState1 wSale.id 1 "test").2.sales, s.id ≠ wSale.id) ∧
    (∀ si ∈ (sale_dao_void_sale wState1 wSale.id 1 "test").2.sale_items,
      si.sale_id ≠ wSale.id) :=
  C1_create_then_void wState 1 1 [wLine] "cash" "test" none wSale
    ["Low stock alert: X (Current stock: 2)"] wState1
    (by rfl) (by decide) (by decide) (by decide)

end BrewAndBite
